import Mathlib

/-!
Verification development for `s3direct/utils.py`.

The file embeds the module shallowly in Lean:
- the SigV4 signing helpers (`sign`, `get_aws_v4_signing_key`) over a concrete
  executable SHA-256 / HMAC-SHA256 on byte lists (`Nat`s below 256);
- the credential resolution chain (`get_aws_credentials`) over an explicit
  settings record and an optional ambient session;
- the object-key builder (`get_key`) with the callable-or-string strategy as a
  tagged variant;
- the presigned-URL issuer (`get_presigned_url`) returning the configuration
  it binds to the provider client and the parameters of the presign call,
  with lookup failures as explicit errors.

Theorems about the claims of the specification follow the definitions.
-/

/-! ## Bytes, words and SHA-256 -/

/-- `2 ^ 32`, the word modulus of SHA-256. -/
def MOD32 : Nat := 4294967296

/-- Right rotation of a 32-bit word (a `Nat` below `MOD32`). -/
def rotr (n x : Nat) : Nat := ((x >>> n) ||| (x <<< (32 - n))) % MOD32

/-- `k` bytes of `n`, big-endian, most significant first. -/
def toBE : Nat → Nat → List Nat
  | 0, _ => []
  | k + 1, n => ((n >>> (8 * k)) % 256) :: toBE k n

/-- Pack bytes into 32-bit big-endian words, four bytes per word. -/
def bytesToWords : List Nat → List Nat
  | b0 :: b1 :: b2 :: b3 :: rest =>
      ((b0 <<< 24) ||| (b1 <<< 16) ||| (b2 <<< 8) ||| b3) :: bytesToWords rest
  | _ => []

/-- Extend a 16-word block schedule by `n` further words (SHA-256 schedule). -/
def extendSchedule (w : List Nat) : Nat → List Nat
  | 0 => w
  | n + 1 =>
    let i := w.length
    let w15 := w.getD (i - 15) 0
    let w2 := w.getD (i - 2) 0
    let s0 := rotr 7 w15 ^^^ rotr 18 w15 ^^^ (w15 >>> 3)
    let s1 := rotr 17 w2 ^^^ rotr 19 w2 ^^^ (w2 >>> 10)
    extendSchedule (w ++ [(w.getD (i - 16) 0 + s0 + w.getD (i - 7) 0 + s1) % MOD32]) n

/-- The eight 32-bit working variables of the SHA-256 compression function. -/
structure SHAState where
  a : Nat
  b : Nat
  c : Nat
  d : Nat
  e : Nat
  f : Nat
  g : Nat
  h : Nat

/-- The 64 SHA-256 round constants (FIPS 180-4, in decimal). -/
def K256 : List Nat :=
  [1116352408, 1899447441, 3049323471, 3921009573, 961987163, 1508970993,
   2453635748, 2870763221, 3624381080, 310598401, 607225278, 1426881987,
   1925078388, 2162078206, 2614888103, 3248222580, 3835390401, 4022224774,
   264347078, 604807628, 770255983, 1249150122, 1555081692, 1996064986,
   2554220882, 2821834349, 2952996808, 3210313671, 3336571891, 3584528711,
   113926993, 338241895, 666307205, 773529912, 1294757372, 1396182291,
   1695183700, 1986661051, 2177026350, 2456956037, 2730485921, 2820302411,
   3259730800, 3345764771, 3516065817, 3600352804, 4094571909, 275423344,
   430227734, 506948616, 659060556, 883997877, 958139571, 1322822218,
   1537002063, 1747873779, 1955562222, 2024104815, 2227730452, 2361852424,
   2428436474, 2756734187, 3204031479, 3329325298]

/-- The SHA-256 initial hash value (FIPS 180-4, in decimal). -/
def H256init : SHAState :=
  ⟨1779033703, 3144134277, 1013904242, 2773480762,
   1359893119, 2600822924, 528734635, 1541459225⟩

/-- One SHA-256 round: `kw` pairs the round constant with the schedule word. -/
def shaRound (st : SHAState) (kw : Nat × Nat) : SHAState :=
  let S1 := rotr 6 st.e ^^^ rotr 11 st.e ^^^ rotr 25 st.e
  let ch := (st.e &&& st.f) ^^^ ((st.e ^^^ (MOD32 - 1)) &&& st.g)
  let t1 := (st.h + S1 + ch + kw.1 + kw.2) % MOD32
  let S0 := rotr 2 st.a ^^^ rotr 13 st.a ^^^ rotr 22 st.a
  let maj := (st.a &&& st.b) ^^^ (st.a &&& st.c) ^^^ (st.b &&& st.c)
  let t2 := (S0 + maj) % MOD32
  ⟨(t1 + t2) % MOD32, st.a, st.b, st.c, (st.d + t1) % MOD32, st.e, st.f, st.g⟩

/-- The SHA-256 compression function on one 64-byte block. -/
def compress (H : SHAState) (block : List Nat) : SHAState :=
  let w := extendSchedule (bytesToWords block) 48
  let st := (K256.zip w).foldl shaRound H
  ⟨(H.a + st.a) % MOD32, (H.b + st.b) % MOD32, (H.c + st.c) % MOD32, (H.d + st.d) % MOD32,
   (H.e + st.e) % MOD32, (H.f + st.f) % MOD32, (H.g + st.g) % MOD32, (H.h + st.h) % MOD32⟩

/-- SHA-256 padding: `0x80`, zeros to 56 mod 64, then the bit length on 8 bytes. -/
def padMessage (m : List Nat) : List Nat :=
  let l := m.length
  m ++ [128] ++ List.replicate ((64 - (l + 9) % 64) % 64) 0 ++ toBE 8 (8 * l)

/-- Split a byte list into 64-byte blocks; the fuel bounds the recursion and is
always instantiated with the length of the list. -/
def chunksF : Nat → List Nat → List (List Nat)
  | 0, _ => []
  | fuel + 1, l => if l.isEmpty then [] else l.take 64 :: chunksF fuel (l.drop 64)

/-- The digest bytes of a final state: each word big-endian, `a` first. -/
def digestBytes (st : SHAState) : List Nat :=
  toBE 4 st.a ++ toBE 4 st.b ++ toBE 4 st.c ++ toBE 4 st.d ++
  toBE 4 st.e ++ toBE 4 st.f ++ toBE 4 st.g ++ toBE 4 st.h

/-- SHA-256 of a byte list. -/
def sha256 (m : List Nat) : List Nat :=
  digestBytes ((chunksF (padMessage m).length (padMessage m)).foldl compress H256init)

/-- HMAC-SHA256 with the standard 64-byte block size, as Python's
`hmac.new(key, message, hashlib.sha256).digest()`. -/
def hmacSha256 (key msg : List Nat) : List Nat :=
  let k0 := if 64 < key.length then sha256 key else key
  let kp := k0 ++ List.replicate (64 - k0.length) 0
  sha256 ((kp.map (fun b => b ^^^ 92)) ++ sha256 ((kp.map (fun b => b ^^^ 54)) ++ msg))

/-- UTF-8 encoding of one code point. -/
def utf8Char (c : Nat) : List Nat :=
  if c < 128 then [c]
  else if c < 2048 then [192 ||| (c >>> 6), 128 ||| (c &&& 63)]
  else if c < 65536 then
    [224 ||| (c >>> 12), 128 ||| ((c >>> 6) &&& 63), 128 ||| (c &&& 63)]
  else
    [240 ||| (c >>> 18), 128 ||| ((c >>> 12) &&& 63), 128 ||| ((c >>> 6) &&& 63), 128 ||| (c &&& 63)]

/-- UTF-8 encoding of a string, as Python's `str.encode("utf-8")`. -/
def encodeUtf8 (s : String) : List Nat :=
  (s.data.map (fun c => utf8Char c.toNat)).foldr (· ++ ·) []

/-! ## Signer: `sign` and `get_aws_v4_signing_key` from `utils.py` -/

/-- `utils.sign`: HMAC-SHA256 of the UTF-8 encoded message under a byte key. -/
def sign (key : List Nat) (message : String) : List Nat :=
  hmacSha256 key (encodeUtf8 message)

/-- A calendar date, the part of a Python `date`/`datetime` that
`strftime("%Y%m%d")` reads. -/
structure CalendarDate where
  year : Nat
  month : Nat
  day : Nat

/-- Decimal rendering of `n` left-padded with zeros to width `w`. -/
def padNum (w n : Nat) : String :=
  let s := toString n
  String.mk (List.replicate (w - s.length) '0') ++ s

/-- `signing_date.strftime("%Y%m%d")`: the year on four digits, month and day
on two, zero-padded. -/
def strftimeYYYYMMDD (d : CalendarDate) : String :=
  padNum 4 d.year ++ padNum 2 d.month ++ padNum 2 d.day

/-- `utils.get_aws_v4_signing_key`, line for line. -/
def get_aws_v4_signing_key (key : String) (signing_date : CalendarDate)
    (region service : String) : List Nat :=
  let datestamp := strftimeYYYYMMDD signing_date
  let date_key := sign (encodeUtf8 ("AWS4" ++ key)) datestamp
  let k_region := sign date_key region
  let k_service := sign k_region service
  let k_signing := sign k_service "aws4_request"
  k_signing

/-- Modelled from the spec: `deriveSigningKey(secretKey, date, region, service)`
as the four-step AWS SigV4 chain of §4.1 — dateKey from `"AWS4" + secretKey`
over the date formatted YYYYMMDD, then regionKey, serviceKey, and the final
signing key over the literal `"aws4_request"`. -/
def deriveSigningKey (secretKey : String) (date : CalendarDate)
    (region service : String) : List Nat :=
  let dateKey := hmacSha256 (encodeUtf8 ("AWS4" ++ secretKey)) (encodeUtf8 (strftimeYYYYMMDD date))
  let regionKey := hmacSha256 dateKey (encodeUtf8 region)
  let serviceKey := hmacSha256 regionKey (encodeUtf8 service)
  hmacSha256 serviceKey (encodeUtf8 "aws4_request")

/-! ## Settings, credentials and the ambient session -/

/-- Python truthiness of an optional string setting: present and non-empty. -/
def truthy : Option String → Bool
  | none => false
  | some s => !(s == "")

/-- The credentials held by the ambient botocore session. -/
structure BotoCredentials where
  token : Option String
  secret_key : Option String
  access_key : Option String

/-- The ambient credential session; `credentials` is what
`SESSION.get_credentials()` returns (`none` models Python `None`). -/
structure AmbientSession where
  credentials : Option BotoCredentials

/-- The `AWSCredentials` namedtuple of `utils.py`. -/
structure AWSCredentials where
  token : Option String
  secret_key : Option String
  access_key : Option String
deriving DecidableEq

/-- Keyword arguments a destination may carry for a callable key strategy, as a
Python dict (an association list); the empty dict is falsy. -/
def KeyArgs : Type := List (String × String)

/-- An argument passed to a callable key strategy: the file name, or the
destination's `key_args` value. -/
inductive CallArg where
  | str (s : String)
  | args (a : List (String × String))
deriving DecidableEq

/-- A destination record; `none` in a field models the key being absent from
the destination dict. -/
structure Dest where
  bucket : Option String
  region : Option String
  endpoint : Option String
  key_args : Option (List (String × String))

/-- The Django settings the module reads, each `none` when the attribute is
absent (the `getattr(settings, _, None)` default). -/
structure Settings where
  AWS_ACCESS_KEY_ID : Option String
  AWS_SECRET_ACCESS_KEY : Option String
  AWS_STORAGE_BUCKET_NAME : Option String
  AWS_S3_REGION_NAME : Option String
  AWS_S3_ENDPOINT_URL : Option String
  ORIGINAL_AWS_S3_REGION_NAME : Option String
  ORIGINAL_AWS_S3_ENDPOINT_URL : Option String
  ORIGINAL_AWS_ACCESS_KEY_ID : Option String
  ORIGINAL_SECRET_ACCESS_KEY : Option String
  S3DIRECT_DESTINATIONS : Option (List (String × Dest))

/-- `utils.get_aws_credentials`: static keys if both are truthy, else the
ambient session's credentials, else fully anonymous. -/
def get_aws_credentials (settings : Settings) (SESSION : Option AmbientSession) :
    AWSCredentials :=
  let access_key := settings.AWS_ACCESS_KEY_ID
  let secret_key := settings.AWS_SECRET_ACCESS_KEY
  if truthy access_key && truthy secret_key then
    ⟨none, secret_key, access_key⟩
  else
    match SESSION with
    | none => ⟨none, none, none⟩
    | some sess =>
      match sess.credentials with
      | some creds => ⟨creds.token, creds.secret_key, creds.access_key⟩
      | none => ⟨none, none, none⟩

/-! ## Object key builder: `get_key` -/

/-- The `key` parameter of `get_key`: a string, or a Python callable taking the
argument list the builder assembles. -/
inductive KeyParam where
  | str (s : String)
  | callable (f : List CallArg → String)

/-- Python `str.strip("/")`: drop every leading and trailing `/`. -/
def stripSlashes (s : String) : String :=
  String.mk (((s.data.dropWhile (· = '/')).reverse.dropWhile (· = '/')).reverse)

/-- `utils.get_key`: a callable is applied to `[file_name]`, plus the
destination's `key_args` when that value is truthy (`if args:`); the literal
`"/"` maps to the bare file name; any other string is stripped of slashes on
both ends and prepended with a `/` separator. -/
def get_key (key : KeyParam) (file_name : String) (dest : Dest) : String :=
  match key with
  | .callable f =>
    let fn_args := [CallArg.str file_name]
    let fn_args :=
      match dest.key_args with
      | some a => if a.isEmpty then fn_args else fn_args ++ [CallArg.args a]
      | none => fn_args
    f fn_args
  | .str s =>
    if s = "/" then file_name
    else stripSlashes s ++ "/" ++ file_name

/-! ## Presigned URL issuer: `get_presigned_url` -/

/-- The botocore `Config(signature_version="s3v4")` object. -/
structure BotoConfig where
  signature_version : String
deriving DecidableEq

/-- What `boto3.client("s3", ...)` is constructed with: endpoint, region, the
signing config, and the explicit key pair when the `authentication` dict was
populated (`none` when it stayed `{}`). -/
structure S3Client where
  endpoint_url : Option String
  region_name : Option String
  config : BotoConfig
  auth : Option (String × String)
deriving DecidableEq

/-- The presign call the issuer makes: the client it built and the parameters
passed to `generate_presigned_url`. -/
structure PresignResult where
  client : S3Client
  method_name : String
  bucket : Option String
  key : String
  expires_in : Nat
deriving DecidableEq

/-- How `get_presigned_url` fails before reaching the provider: the
destinations setting is absent, or the requested destination is not in the
mapping (in the Python source either one crashes on `None.get`). -/
inductive PresignError where
  | noDestinationsConfigured
  | destinationNotFound
deriving DecidableEq

/-- Python `dict.get(k, default)` on an optional field. -/
def pyGet (v d : Option String) : Option String :=
  match v with
  | some x => some x
  | none => d

/-- `dests.get(dest)`: first binding of the destination id in the mapping. -/
def lookupDest (m : List (String × Dest)) (k : String) : Option Dest :=
  (m.find? (fun p => p.1 == k)).map (fun p => p.2)

/-- The `authentication` dict: populated with the pair exactly when both the
access key and the secret key are truthy, `{}` (`none`) otherwise. -/
def mkAuth : Option String → Option String → Option (String × String)
  | some a, some k => if a = "" ∨ k = "" then none else some (a, k)
  | none, _ => none
  | some _, none => none

/-- The client configuration and presign parameters `get_presigned_url`
assembles once the destination is resolved. In the source the primary region
and endpoint are computed first and overwritten in the `is_oracle == False`
branch, and the primary key pair is rebound to the `ORIGINAL_*` settings
there; the net bindings per branch are reproduced here. -/
def presignForDest (s : Settings) (dest : Dest) (key : String)
    (expires_in : Nat) (method_name : String) (is_oracle : Bool) : PresignResult :=
  let bucket := pyGet dest.bucket s.AWS_STORAGE_BUCKET_NAME
  if is_oracle then
    let region := pyGet dest.region s.AWS_S3_REGION_NAME
    let endpoint := pyGet dest.endpoint s.AWS_S3_ENDPOINT_URL
    let authentication := mkAuth s.AWS_ACCESS_KEY_ID s.AWS_SECRET_ACCESS_KEY
    ⟨⟨endpoint, region, ⟨"s3v4"⟩, authentication⟩, method_name, bucket, key, expires_in⟩
  else
    let region := pyGet dest.region s.ORIGINAL_AWS_S3_REGION_NAME
    let endpoint := pyGet dest.endpoint s.ORIGINAL_AWS_S3_ENDPOINT_URL
    let authentication := mkAuth s.ORIGINAL_AWS_ACCESS_KEY_ID s.ORIGINAL_SECRET_ACCESS_KEY
    ⟨⟨endpoint, region, ⟨"s3v4"⟩, authentication⟩, method_name, bucket, key, expires_in⟩

/-- `utils.get_presigned_url`: look the destination up in the live
destinations mapping, then build the client and the presign call. -/
def get_presigned_url (s : Settings) (destId : String) (key : String)
    (expires_in : Nat) (method_name : String) (is_oracle : Bool) :
    Except PresignError PresignResult :=
  match s.S3DIRECT_DESTINATIONS with
  | none => .error .noDestinationsConfigured
  | some dests =>
    match lookupDest dests destId with
    | none => .error .destinationNotFound
    | some dest => .ok (presignForDest s dest key expires_in method_name is_oracle)

/-! ## Concrete configurations used to witness the theorems -/

/-- A callable key strategy that reports how many arguments it received. -/
def argCount (l : List CallArg) : String := toString l.length

/-- A destination whose `key_args` is the empty dict (present but falsy). -/
def destEmptyArgs : Dest := ⟨none, none, none, some []⟩

/-- A destination carrying only a bucket, no region/endpoint/key_args. -/
def destPlain : Dest := ⟨some "bkt", none, none, none⟩

/-- Settings with both static keys configured. -/
def settingsStatic : Settings :=
  ⟨some "AK", some "SK", none, none, none, none, none, none, none, none⟩

/-- Settings with nothing configured at all. -/
def settingsEmpty : Settings :=
  ⟨none, none, none, none, none, none, none, none, none, none⟩

/-- An ambient session that does hold credentials. -/
def sessWithCreds : AmbientSession := ⟨some ⟨some "tok", some "sek", some "ack"⟩⟩

/-- Settings with every primary and every "original" value populated, and one
destination `"imgs"`. -/
def settingsFull : Settings :=
  ⟨some "PAK", some "PSK", some "defbkt", some "p-region", some "p-endpoint",
   some "o-region", some "o-endpoint", some "OAK", some "OSK",
   some [("imgs", destPlain)]⟩

/-- `settingsFull` with different primary key material and nothing else
changed. -/
def settingsFullAlt : Settings :=
  ⟨some "PAK2", none, some "defbkt", some "p-region", some "p-endpoint",
   some "o-region", some "o-endpoint", some "OAK", some "OSK",
   some [("imgs", destPlain)]⟩

/-! ## Helper lemmas -/

/-- The digest of any final state is 32 bytes. -/
theorem digestBytes_length (st : SHAState) : (digestBytes st).length = 32 := rfl

/-- SHA-256 always emits 32 bytes. -/
theorem sha256_length (m : List Nat) : (sha256 m).length = 32 :=
  digestBytes_length _

/-- HMAC-SHA256 always emits 32 bytes. -/
theorem hmacSha256_length (k m : List Nat) : (hmacSha256 k m).length = 32 :=
  sha256_length _

/-- The `authentication` dict holds a pair exactly when both optional strings
are truthy, and then it holds those strings. -/
theorem mkAuth_spec (ak sk : Option String) :
    (mkAuth ak sk ≠ none ↔ (truthy ak = true ∧ truthy sk = true)) ∧
    (mkAuth ak sk = none ∨ mkAuth ak sk = some (ak.getD "", sk.getD "")) := by
  cases ak with
  | none => simp [mkAuth, truthy]
  | some a =>
    cases sk with
    | none => simp [mkAuth, truthy]
    | some k =>
      by_cases ha : a = "" <;> by_cases hk : k = "" <;>
        simp [mkAuth, truthy, ha, hk]

/-! ## The claims -/

/-- C1: for every secret key, calendar date, region and service,
`get_aws_v4_signing_key` equals the four-step AWS SigV4 chain — HMAC-SHA256 of
`"AWS4" + key` over the date formatted YYYYMMDD, then over the region, the
service, and the literal `"aws4_request"` — and the result is the final
32-byte digest. -/
theorem c1_signing_key_chain (K : String) (D : CalendarDate) (R S : String) :
    get_aws_v4_signing_key K D R S = deriveSigningKey K D R S ∧
    (get_aws_v4_signing_key K D R S).length = 32 :=
  ⟨rfl, hmacSha256_length _ _⟩

/-- C2: whenever both static keys are configured and non-empty,
`get_aws_credentials` returns exactly `(none, secret, access)`, whatever the
ambient session holds. -/
theorem c2_static_keys_win (s : Settings) (SESSION : Option AmbientSession)
    (ha : truthy s.AWS_ACCESS_KEY_ID = true)
    (hk : truthy s.AWS_SECRET_ACCESS_KEY = true) :
    get_aws_credentials s SESSION =
      ⟨none, s.AWS_SECRET_ACCESS_KEY, s.AWS_ACCESS_KEY_ID⟩ := by
  simp [get_aws_credentials, ha, hk]

/-- Witness for C2: static keys win even against a session that holds
credentials. -/
theorem c2_static_keys_win_witness :
    get_aws_credentials settingsStatic (some sessWithCreds) =
      ⟨none, some "SK", some "AK"⟩ :=
  c2_static_keys_win settingsStatic (some sessWithCreds) (by decide) (by decide)

/-- C3: with no truthy static key pair and no usable session (absent, or
returning null credentials), `get_aws_credentials` returns the fully anonymous
triple — it cannot fail, being a total function into `AWSCredentials`. -/
theorem c3_anonymous_fallback (s : Settings) (SESSION : Option AmbientSession)
    (hstatic : (truthy s.AWS_ACCESS_KEY_ID && truthy s.AWS_SECRET_ACCESS_KEY) = false)
    (hsess : SESSION = none ∨ SESSION = some ⟨none⟩) :
    get_aws_credentials s SESSION = ⟨none, none, none⟩ := by
  rcases hsess with h | h <;> subst h <;> simp [get_aws_credentials, hstatic]

/-- Witness for C3: empty settings and no session give the anonymous triple. -/
theorem c3_anonymous_fallback_witness :
    get_aws_credentials settingsEmpty none = ⟨none, none, none⟩ :=
  c3_anonymous_fallback settingsEmpty none (by decide) (Or.inl rfl)

/-- C4: a string key strategy equal to `"/"` yields the file name unchanged;
any other string yields the strategy stripped of slashes on both ends, a
`/`, and the file name — in particular the empty strategy yields
`"/" ++ file_name` with no special-casing. -/
theorem c4_string_key_strategy (ks file_name : String) (dest : Dest) :
    (get_key (KeyParam.str ks) file_name dest =
      if ks = "/" then file_name else stripSlashes ks ++ "/" ++ file_name) ∧
    get_key (KeyParam.str "") file_name dest = "/" ++ file_name :=
  ⟨rfl, rfl⟩

/-- Counterexample for C5: a destination whose `key_args` is present and
non-null but empty (a falsy dict) makes `get_key` call the strategy with the
file name alone, not with the pair the claim requires. -/
theorem c5_counterexample :
    get_key (KeyParam.callable argCount) "a.png" destEmptyArgs ≠
      argCount [CallArg.str "a.png", CallArg.args []] := by
  decide

/-- C5 (amended): a callable strategy receives the file name alone when the
destination's `key_args` is absent, null or empty (falsy), receives the pair
`(file_name, key_args)` when `key_args` is present and non-empty (truthy),
and its result is returned verbatim. -/
theorem c5_callable_dispatch (f : List CallArg → String) (file_name : String)
    (dest : Dest) :
    (dest.key_args = none →
      get_key (KeyParam.callable f) file_name dest = f [CallArg.str file_name]) ∧
    (dest.key_args = some [] →
      get_key (KeyParam.callable f) file_name dest = f [CallArg.str file_name]) ∧
    (∀ a, dest.key_args = some a → a.isEmpty = false →
      get_key (KeyParam.callable f) file_name dest =
        f [CallArg.str file_name, CallArg.args a]) := by
  refine ⟨fun h => ?_, fun h => ?_, fun a h ha => ?_⟩
  · simp [get_key, h]
  · simp [get_key, h]
  · simp [get_key, h, ha]

/-- Witness for C5: the one-argument and the two-argument call, on concrete
destinations. -/
theorem c5_callable_dispatch_witness :
    get_key (KeyParam.callable argCount) "a.png" ⟨none, none, none, none⟩ =
      argCount [CallArg.str "a.png"] ∧
    get_key (KeyParam.callable argCount) "a.png"
        ⟨none, none, none, some [("acl", "private")]⟩ =
      argCount [CallArg.str "a.png", CallArg.args [("acl", "private")]] :=
  ⟨(c5_callable_dispatch argCount "a.png" ⟨none, none, none, none⟩).1 rfl,
   (c5_callable_dispatch argCount "a.png"
      ⟨none, none, none, some [("acl", "private")]⟩).2.2 _ rfl (by decide)⟩

/-- C6: when the destinations mapping exists but the requested destination id
is not in it, `get_presigned_url` fails and returns no URL. -/
theorem c6_missing_destination_error (s : Settings) (dests : List (String × Dest))
    (destId key method_name : String) (expires_in : Nat) (is_oracle : Bool)
    (hD : s.S3DIRECT_DESTINATIONS = some dests)
    (hL : lookupDest dests destId = none) :
    get_presigned_url s destId key expires_in method_name is_oracle =
      Except.error PresignError.destinationNotFound := by
  simp [get_presigned_url, hD, hL]

/-- Witness for C6: a destination id absent from a one-entry mapping. -/
theorem c6_missing_destination_error_witness :
    get_presigned_url settingsFull "missing" "k" 3600 "get_object" true =
      Except.error PresignError.destinationNotFound :=
  c6_missing_destination_error settingsFull [("imgs", destPlain)]
    "missing" "k" "get_object" 3600 true rfl rfl

/-- C7: in FOREIGN mode (`is_oracle = false`) the client's region and endpoint
come from the destination record when present there and otherwise from the
ORIGINAL settings — the primary region/endpoint settings play no part. -/
theorem c7_foreign_mode_original_settings (s : Settings)
    (dests : List (String × Dest)) (dest : Dest)
    (destId key method_name : String) (expires_in : Nat) (r : PresignResult)
    (hD : s.S3DIRECT_DESTINATIONS = some dests)
    (hL : lookupDest dests destId = some dest)
    (hR : get_presigned_url s destId key expires_in method_name false =
      Except.ok r) :
    r.client.region_name = pyGet dest.region s.ORIGINAL_AWS_S3_REGION_NAME ∧
    r.client.endpoint_url = pyGet dest.endpoint s.ORIGINAL_AWS_S3_ENDPOINT_URL := by
  have hr : presignForDest s dest key expires_in method_name false = r := by
    simpa [get_presigned_url, hD, hL] using hR
  subst hr
  simp [presignForDest]

/-- Witness for C7: with every setting populated, FOREIGN mode binds the
"original" region and endpoint. -/
theorem c7_foreign_mode_original_settings_witness :
    (presignForDest settingsFull destPlain "k" 3600 "get_object" false).client.region_name =
      some "o-region" ∧
    (presignForDest settingsFull destPlain "k" 3600 "get_object" false).client.endpoint_url =
      some "o-endpoint" :=
  c7_foreign_mode_original_settings settingsFull [("imgs", destPlain)] destPlain
    "imgs" "k" "get_object" 3600 _ rfl rfl rfl

/-- C8: the client carries an explicit key pair iff both mode-specific
settings (primary pair when `is_oracle`, ORIGINAL pair otherwise) are present
and non-empty, and then it carries exactly those two values. -/
theorem c8_explicit_auth_iff_truthy_pair (s : Settings)
    (dests : List (String × Dest)) (dest : Dest)
    (destId key method_name : String) (expires_in : Nat) (is_oracle : Bool)
    (r : PresignResult)
    (hD : s.S3DIRECT_DESTINATIONS = some dests)
    (hL : lookupDest dests destId = some dest)
    (hR : get_presigned_url s destId key expires_in method_name is_oracle =
      Except.ok r) :
    (r.client.auth ≠ none ↔
      (truthy (if is_oracle then s.AWS_ACCESS_KEY_ID else s.ORIGINAL_AWS_ACCESS_KEY_ID) = true ∧
       truthy (if is_oracle then s.AWS_SECRET_ACCESS_KEY else s.ORIGINAL_SECRET_ACCESS_KEY) = true)) ∧
    (r.client.auth = none ∨
      r.client.auth = some
        ((if is_oracle then s.AWS_ACCESS_KEY_ID else s.ORIGINAL_AWS_ACCESS_KEY_ID).getD "",
         (if is_oracle then s.AWS_SECRET_ACCESS_KEY else s.ORIGINAL_SECRET_ACCESS_KEY).getD "")) := by
  have hr : presignForDest s dest key expires_in method_name is_oracle = r := by
    simpa [get_presigned_url, hD, hL] using hR
  subst hr
  cases is_oracle <;> exact mkAuth_spec _ _

/-- Witness for C8: in FOREIGN mode with both ORIGINAL keys set, the client
carries exactly that pair. -/
theorem c8_explicit_auth_iff_truthy_pair_witness :
    ((presignForDest settingsFull destPlain "k" 3600 "get_object" false).client.auth ≠ none ↔
      (truthy settingsFull.ORIGINAL_AWS_ACCESS_KEY_ID = true ∧
       truthy settingsFull.ORIGINAL_SECRET_ACCESS_KEY = true)) ∧
    ((presignForDest settingsFull destPlain "k" 3600 "get_object" false).client.auth = none ∨
     (presignForDest settingsFull destPlain "k" 3600 "get_object" false).client.auth =
       some ("OAK", "OSK")) :=
  c8_explicit_auth_iff_truthy_pair settingsFull [("imgs", destPlain)] destPlain
    "imgs" "k" "get_object" 3600 false _ rfl rfl rfl

/-- C9: in FOREIGN mode the whole outcome of `get_presigned_url` is
independent of the primary `AWS_ACCESS_KEY_ID` and `AWS_SECRET_ACCESS_KEY`
settings: two settings records equal everywhere else produce equal results. -/
theorem c9_foreign_ignores_primary_keys (s1 s2 : Settings)
    (destId key method_name : String) (expires_in : Nat)
    (h3 : s1.AWS_STORAGE_BUCKET_NAME = s2.AWS_STORAGE_BUCKET_NAME)
    (h4 : s1.AWS_S3_REGION_NAME = s2.AWS_S3_REGION_NAME)
    (h5 : s1.AWS_S3_ENDPOINT_URL = s2.AWS_S3_ENDPOINT_URL)
    (h6 : s1.ORIGINAL_AWS_S3_REGION_NAME = s2.ORIGINAL_AWS_S3_REGION_NAME)
    (h7 : s1.ORIGINAL_AWS_S3_ENDPOINT_URL = s2.ORIGINAL_AWS_S3_ENDPOINT_URL)
    (h8 : s1.ORIGINAL_AWS_ACCESS_KEY_ID = s2.ORIGINAL_AWS_ACCESS_KEY_ID)
    (h9 : s1.ORIGINAL_SECRET_ACCESS_KEY = s2.ORIGINAL_SECRET_ACCESS_KEY)
    (h10 : s1.S3DIRECT_DESTINATIONS = s2.S3DIRECT_DESTINATIONS) :
    get_presigned_url s1 destId key expires_in method_name false =
    get_presigned_url s2 destId key expires_in method_name false := by
  obtain ⟨a1, b1, c1, d1, e1, f1, g1, i1, j1, k1⟩ := s1
  obtain ⟨a2, b2, c2, d2, e2, f2, g2, i2, j2, k2⟩ := s2
  dsimp only at h3 h4 h5 h6 h7 h8 h9 h10
  subst h3 h4 h5 h6 h7 h8 h9 h10
  cases k1 with
  | none => rfl
  | some dests =>
    cases hld : lookupDest dests destId with
    | none => simp [get_presigned_url, hld]
    | some dest =>
      simp only [get_presigned_url, hld]
      rfl

/-- Witness for C9: changing only the primary key pair changes nothing in
FOREIGN mode. -/
theorem c9_foreign_ignores_primary_keys_witness :
    get_presigned_url settingsFull "imgs" "k" 3600 "get_object" false =
    get_presigned_url settingsFullAlt "imgs" "k" 3600 "get_object" false :=
  c9_foreign_ignores_primary_keys settingsFull settingsFullAlt
    "imgs" "k" "get_object" 3600 rfl rfl rfl rfl rfl rfl rfl rfl

/-- C10: the Bucket parameter of the presign call is the destination's bucket
when the destination has one, and the `AWS_STORAGE_BUCKET_NAME` setting
(possibly absent) when it does not. -/
theorem c10_bucket_resolution (s : Settings)
    (dests : List (String × Dest)) (dest : Dest)
    (destId key method_name : String) (expires_in : Nat) (is_oracle : Bool)
    (r : PresignResult)
    (hD : s.S3DIRECT_DESTINATIONS = some dests)
    (hL : lookupDest dests destId = some dest)
    (hR : get_presigned_url s destId key expires_in method_name is_oracle =
      Except.ok r) :
    (dest.bucket = none → r.bucket = s.AWS_STORAGE_BUCKET_NAME) ∧
    (dest.bucket ≠ none → r.bucket = dest.bucket) := by
  have hr : presignForDest s dest key expires_in method_name is_oracle = r := by
    simpa [get_presigned_url, hD, hL] using hR
  subst hr
  constructor
  · intro h
    cases is_oracle <;> simp [presignForDest, pyGet, h]
  · intro h
    obtain ⟨b, hb⟩ := Option.ne_none_iff_exists'.mp h
    cases is_oracle <;> simp [presignForDest, pyGet, hb]

/-- Witness for C10: a destination that carries a bucket overrides the
default setting. -/
theorem c10_bucket_resolution_witness :
    (destPlain.bucket = none →
      (presignForDest settingsFull destPlain "k" 3600 "get_object" true).bucket =
        settingsFull.AWS_STORAGE_BUCKET_NAME) ∧
    (destPlain.bucket ≠ none →
      (presignForDest settingsFull destPlain "k" 3600 "get_object" true).bucket =
        destPlain.bucket) :=
  c10_bucket_resolution settingsFull [("imgs", destPlain)] destPlain
    "imgs" "k" "get_object" 3600 true _ rfl rfl rfl
